import Mathlib

/-!
Verification of the data model of pptx2md (`src/pptx2md/types.py`).

The source file defines pydantic `BaseModel` classes with type annotations
and field defaults, and no validators, no field constraints and no
`model_config` (so in particular no `frozen=True`).  The shallow embedding
below translates each class to a Lean structure:

  * a pydantic field with a default (`f: T = v`) becomes a structure field
    with a Lean default value, so a structure literal omitting it mirrors a
    keyword call omitting it;
  * a pydantic field without a default (including `Optional[T]` without
    `= None`, which pydantic v2 treats as required) becomes a field without
    a default;
  * Python `int` becomes `Int`, `str` becomes `String`, `Path` becomes the
    path string, `float` becomes `Float`, `Optional[T]` becomes `Option T`,
    `List[T]` becomes `List T`, `dict[str, int]` becomes
    `List (String × Int)`;
  * the `Union` type `SlideElement` becomes an inductive with one
    constructor per member class;
  * pydantic keyword construction (which fails exactly when a required
    field is missing, since no validators are declared) is modelled by
    `validateConfig` over a record of optional keyword arguments.
-/

namespace Pptx2md

/-- Embeds `ElementType` of types.py: a closed enumeration of the eight
element type tags. -/
inductive ElementType where
  | TITLE
  | LIST_ITEM
  | PARAGRAPH
  | IMAGE
  | TABLE
  | NOTE
  | COLUMN_START
  | COLUMN_END
deriving DecidableEq, Repr, Fintype

/-- Embeds `ConversionConfig` of types.py.  The four fields without Lean
defaults are exactly the pydantic fields declared without a default value;
every other field carries the default written in the source. -/
structure ConversionConfig where
  pptx_path : String
  output_path : String
  image_dir : Option String
  title_path : Option String
  image_width : Option Int := none
  disable_image : Bool := false
  disable_wmf : Bool := false
  disable_color : Bool := false
  disable_escaping : Bool := false
  disable_notes : Bool := false
  enable_slides : Bool := false
  is_wiki : Bool := false
  is_mdk : Bool := false
  is_qmd : Bool := false
  min_block_size : Int := 15
  page : Option Int := none
  custom_titles : List (String × Int) := []
deriving DecidableEq, Repr

/-- Keyword arguments of a `ConversionConfig(...)` call: `none` means the
keyword was omitted, `some v` means it was passed with value `v` (for the
`Optional`-typed fields the passed value is itself an `Option`). -/
structure ConfigArgs where
  pptx_path : Option String := none
  output_path : Option String := none
  image_dir : Option (Option String) := none
  title_path : Option (Option String) := none
  image_width : Option (Option Int) := none
  disable_image : Option Bool := none
  disable_wmf : Option Bool := none
  disable_color : Option Bool := none
  disable_escaping : Option Bool := none
  disable_notes : Option Bool := none
  enable_slides : Option Bool := none
  is_wiki : Option Bool := none
  is_mdk : Option Bool := none
  is_qmd : Option Bool := none
  min_block_size : Option Int := none
  page : Option (Option Int) := none
  custom_titles : Option (List (String × Int)) := none

/-- Embeds pydantic construction of `ConversionConfig`: the class declares
no validators, so validation fails exactly when a field without a default
(`pptx_path`, `output_path`, `image_dir`, `title_path`) is missing, and
every omitted field with a default takes that default. -/
def validateConfig (a : ConfigArgs) : Option ConversionConfig :=
  match a.pptx_path, a.output_path, a.image_dir, a.title_path with
  | some pp, some op, some idir, some tp =>
      some {
        pptx_path := pp
        output_path := op
        image_dir := idir
        title_path := tp
        image_width := a.image_width.getD none
        disable_image := a.disable_image.getD false
        disable_wmf := a.disable_wmf.getD false
        disable_color := a.disable_color.getD false
        disable_escaping := a.disable_escaping.getD false
        disable_notes := a.disable_notes.getD false
        enable_slides := a.enable_slides.getD false
        is_wiki := a.is_wiki.getD false
        is_mdk := a.is_mdk.getD false
        is_qmd := a.is_qmd.getD false
        min_block_size := a.min_block_size.getD 15
        page := a.page.getD none
        custom_titles := a.custom_titles.getD [] }
  | _, _, _, _ => none

/-- Embeds `TextStyle` of types.py. -/
structure TextStyle where
  is_accent : Bool := false
  is_strong : Bool := false
  color_rgb : Option String := none
  hyperlink : Option String := none
deriving DecidableEq, Repr

/-- Embeds `TextRun` of types.py: both fields are required, `text` is an
unconstrained string. -/
structure TextRun where
  text : String
  style : TextStyle
deriving DecidableEq, Repr

/-- Embeds `Position` of types.py. -/
structure Position where
  left : Float
  top : Float
  width : Float
  height : Float
deriving Repr

/-- Embeds `TitleElement` of types.py (fields of `BaseElement` inlined):
`type` defaults to `TITLE` but is an ordinary overridable field; `content`
and `level` are required and unconstrained. -/
structure TitleElement where
  type : ElementType := ElementType.TITLE
  position : Option Position := none
  style : Option TextStyle := none
  content : String
  level : Int

/-- Embeds `ListItemElement` of types.py: `level` defaults to `1`. -/
structure ListItemElement where
  type : ElementType := ElementType.LIST_ITEM
  position : Option Position := none
  style : Option TextStyle := none
  content : List TextRun
  level : Int := 1

/-- Embeds `ParagraphElement` of types.py. -/
structure ParagraphElement where
  type : ElementType := ElementType.PARAGRAPH
  position : Option Position := none
  style : Option TextStyle := none
  content : List TextRun

/-- Embeds `ImageElement` of types.py. -/
structure ImageElement where
  type : ElementType := ElementType.IMAGE
  position : Option Position := none
  style : Option TextStyle := none
  path : String
  width : Option Int := none
  original_ext : String := ""
  alt_text : String := ""

/-- Embeds `TableElement` of types.py: rows, then columns, then rich text;
the list shape is unconstrained. -/
structure TableElement where
  type : ElementType := ElementType.TABLE
  position : Option Position := none
  style : Option TextStyle := none
  content : List (List (List TextRun))

/-- Embeds `NoteElement` of types.py. -/
structure NoteElement where
  type : ElementType := ElementType.NOTE
  position : Option Position := none
  style : Option TextStyle := none
  content : List TextRun

/-- Embeds `ColumnStartElement` of types.py. -/
structure ColumnStartElement where
  type : ElementType := ElementType.COLUMN_START
  position : Option Position := none
  style : Option TextStyle := none
  width : String

/-- Embeds `ColumnEndElement` of types.py. -/
structure ColumnEndElement where
  type : ElementType := ElementType.COLUMN_END
  position : Option Position := none
  style : Option TextStyle := none

/-- Embeds the `Union` type `SlideElement` of types.py: one constructor per
member class. -/
inductive SlideElement where
  | title (e : TitleElement)
  | list_item (e : ListItemElement)
  | paragraph (e : ParagraphElement)
  | image (e : ImageElement)
  | table (e : TableElement)
  | note (e : NoteElement)
  | column_start (e : ColumnStartElement)
  | column_end (e : ColumnEndElement)

/-- The `type` field of a `SlideElement` value, whichever variant. -/
def SlideElement.type : SlideElement → ElementType
  | .title e => e.type
  | .list_item e => e.type
  | .paragraph e => e.type
  | .image e => e.type
  | .table e => e.type
  | .note e => e.type
  | .column_start e => e.type
  | .column_end e => e.type

/-- The `position` field of a `SlideElement` value, whichever variant
(present on every variant via `BaseElement`). -/
def SlideElement.position : SlideElement → Option Position
  | .title e => e.position
  | .list_item e => e.position
  | .paragraph e => e.position
  | .image e => e.position
  | .table e => e.position
  | .note e => e.position
  | .column_start e => e.position
  | .column_end e => e.position

/-- The `style` field of a `SlideElement` value, whichever variant
(present on every variant via `BaseElement`). -/
def SlideElement.style : SlideElement → Option TextStyle
  | .title e => e.style
  | .list_item e => e.style
  | .paragraph e => e.style
  | .image e => e.style
  | .table e => e.style
  | .note e => e.style
  | .column_start e => e.style
  | .column_end e => e.style

/-- The eight variants of the union, as an index type. -/
inductive ElementKind where
  | title
  | list_item
  | paragraph
  | image
  | table
  | note
  | column_start
  | column_end
deriving DecidableEq, Repr, Fintype

/-- Which variant a `SlideElement` value belongs to. -/
def kindOf : SlideElement → ElementKind
  | .title _ => .title
  | .list_item _ => .list_item
  | .paragraph _ => .paragraph
  | .image _ => .image
  | .table _ => .table
  | .note _ => .note
  | .column_start _ => .column_start
  | .column_end _ => .column_end

/-- The `ElementType` discriminant each variant declares as the default of
its `type` field in types.py. -/
def kindTag : ElementKind → ElementType
  | .title => ElementType.TITLE
  | .list_item => ElementType.LIST_ITEM
  | .paragraph => ElementType.PARAGRAPH
  | .image => ElementType.IMAGE
  | .table => ElementType.TABLE
  | .note => ElementType.NOTE
  | .column_start => ElementType.COLUMN_START
  | .column_end => ElementType.COLUMN_END

/-- One element of each variant, constructed supplying only the fields that
pydantic requires (all defaulted fields, in particular `type`, `position`
and `style`, are omitted). -/
def defaultElementOfKind : ElementKind → SlideElement
  | .title => .title { content := "", level := 1 }
  | .list_item => .list_item { content := [] }
  | .paragraph => .paragraph { content := [] }
  | .image => .image { path := "" }
  | .table => .table { content := [] }
  | .note => .note { content := [] }
  | .column_start => .column_start { width := "" }
  | .column_end => .column_end {}

/-- Embeds `Slide` of types.py: an unconstrained list of elements plus
plain-string notes. -/
structure Slide where
  elements : List SlideElement
  notes : List String

/-- Embeds `ParsedPresentation` of types.py. -/
structure ParsedPresentation where
  slides : List Slide

/-- Scan of a slide element list tracking the column nesting depth: a
`column_start` is legal only at depth 0, a `column_end` only at depth 1,
and the scan must finish at the depth it requires at the end (0). -/
def columnDepthOk : List SlideElement → Nat → Bool
  | [], d => d == 0
  | e :: rest, d =>
      match e with
      | SlideElement.column_start _ => d == 0 && columnDepthOk rest 1
      | SlideElement.column_end _ => d == 1 && columnDepthOk rest 0
      | _ => columnDepthOk rest d

/-- Balanced, non-nested column markers: the depth scan from 0 succeeds. -/
def columnsBalanced (es : List SlideElement) : Bool :=
  columnDepthOk es 0

/-- Whether the content grid of a table is rectangular: every row has the
same number of cells as the first. -/
def rectangular (t : TableElement) : Bool :=
  match t.content with
  | [] => true
  | r :: rs => rs.all (fun row => row.length == r.length)

/-- Embeds attribute assignment `cfg.is_wiki = b` on a constructed
`ConversionConfig`, as explicit state passing: pydantic models permit
attribute assignment unless their `model_config` sets `frozen=True`, and
types.py sets no `model_config` on any class, so the assignment succeeds
and this is the state observed afterwards. -/
def assign_is_wiki (c : ConversionConfig) (b : Bool) : ConversionConfig :=
  { c with is_wiki := b }

/-- Embeds attribute assignment `pres.slides = s` on a constructed
`ParsedPresentation` (not frozen, see `assign_is_wiki`), as explicit state
passing. -/
def assign_slides (_p : ParsedPresentation) (s : List Slide) : ParsedPresentation :=
  { slides := s }

/-- A `TitleElement` constructed with its `type` field overridden to the
`PARAGRAPH` tag: pydantic accepts this, since `type` is an ordinary field
of type `ElementType` whose declared value is only a default. -/
def mismatchedTitle : TitleElement :=
  { type := ElementType.PARAGRAPH, content := "x", level := 1 }

/-- Keyword arguments setting both `is_wiki` and `is_mdk` to `True`, with
the four required fields supplied. -/
def wikiMdkArgs : ConfigArgs :=
  { pptx_path := some "in.pptx", output_path := some "out.md",
    image_dir := some none, title_path := some none,
    is_wiki := some true, is_mdk := some true }

/-- A slide whose only element is a stray `ColumnEndElement`. -/
def strayColumnEndSlide : Slide :=
  { elements := [SlideElement.column_end {}], notes := [] }

/-- A presentation containing `strayColumnEndSlide`. -/
def strayColumnEndPresentation : ParsedPresentation :=
  { slides := [strayColumnEndSlide] }

/-- A `TitleElement` with `level = 0`. -/
def zeroLevelTitle : TitleElement :=
  { content := "t", level := 0 }

/-- A `ListItemElement` with `level = 0` passed explicitly. -/
def zeroLevelItem : ListItemElement :=
  { content := [], level := 0 }

/-- A `TextRun` with empty text. -/
def emptyRun : TextRun :=
  { text := "", style := {} }

/-- A `ParagraphElement` whose rich text contains the empty run. -/
def emptyRunParagraph : ParagraphElement :=
  { content := [emptyRun] }

/-- A `TableElement` whose first row has one cell and second row has no
cell. -/
def raggedTable : TableElement :=
  { content := [[[]], []] }

/-- A `ConversionConfig` built from the required fields only. -/
def baseConfig : ConversionConfig :=
  { pptx_path := "in.pptx", output_path := "out.md",
    image_dir := none, title_path := none }

/-- C1 counterexample: not every `SlideElement` value has a type tag equal
to the discriminant of its variant — `type` is an overridable field with a
default, so a `TitleElement` carrying the `PARAGRAPH` tag is
constructible. -/
theorem C1_tag_override_counterexample :
    (SlideElement.title mismatchedTitle).type = ElementType.PARAGRAPH ∧
    kindTag (kindOf (SlideElement.title mismatchedTitle)) = ElementType.TITLE ∧
    (SlideElement.title mismatchedTitle).type ≠
      kindTag (kindOf (SlideElement.title mismatchedTitle)) :=
  ⟨rfl, rfl, by decide⟩

/-- C1 (amended): the union has exactly eight variants and the `type`
field of each variant defaults to that variant's `ElementType`
discriminant (though it can be overridden at construction); the eight
default tags are pairwise distinct and every `ElementType` value is the
default tag of exactly one variant. -/
theorem C1_default_tags_bijective :
    (∀ k : ElementKind, (defaultElementOfKind k).type = kindTag k) ∧
    Function.Injective kindTag ∧ Function.Surjective kindTag :=
  ⟨fun k => by cases k <;> rfl, by decide, by decide⟩

/-- C2 counterexample: constructing a `ConversionConfig` with both
`is_wiki` and `is_mdk` set to true succeeds — the class declares no
validator, so no mutual-exclusion check runs at construction. -/
theorem C2_no_exclusivity_counterexample :
    ∃ c : ConversionConfig, validateConfig wikiMdkArgs = some c ∧
      c.is_wiki = true ∧ c.is_mdk = true :=
  ⟨_, rfl, rfl, rfl⟩

/-- C2 (amended): construction performs no dialect-exclusivity check: for
every combination of the selectors `is_wiki`, `is_mdk`, `is_qmd`
(including two or more set to true), construction succeeds whenever the
required fields are supplied, and the resulting value carries the
selectors as passed. -/
theorem C2_selectors_unchecked :
    ∀ (pp op : String) (w m q : Bool),
      ∃ c : ConversionConfig,
        validateConfig
            { pptx_path := some pp, output_path := some op,
              image_dir := some none, title_path := some none,
              is_wiki := some w, is_mdk := some m, is_qmd := some q } = some c ∧
          c.is_wiki = w ∧ c.is_mdk = m ∧ c.is_qmd = q :=
  fun _pp _op _w _m _q => ⟨_, rfl, rfl, rfl, rfl⟩

/-- C3 counterexample: a `ParsedPresentation` containing a slide whose
column markers are unbalanced (a stray `ColumnEnd` at depth 0) is
constructible — `Slide.elements` is an unconstrained list. -/
theorem C3_unbalanced_counterexample :
    strayColumnEndSlide ∈ strayColumnEndPresentation.slides ∧
    columnsBalanced strayColumnEndSlide.elements = false :=
  ⟨List.mem_singleton_self _, rfl⟩

/-- C3 (amended): the IR types do not enforce column-marker balance: there
is a constructible `ParsedPresentation` with a slide whose `ColumnStart`
and `ColumnEnd` markers fail the balanced, non-nested depth scan. -/
theorem C3_balance_not_enforced :
    ∃ p : ParsedPresentation, ∃ s : Slide,
      s ∈ p.slides ∧ columnsBalanced s.elements = false :=
  ⟨strayColumnEndPresentation, strayColumnEndSlide, List.mem_singleton_self _, rfl⟩

/-- C4 counterexample: a `TitleElement` with `level = 0` is constructible,
so the level of a constructible title element is not always at least 1. -/
theorem C4_level_counterexample :
    zeroLevelTitle.level = 0 ∧ ¬(1 ≤ zeroLevelTitle.level) :=
  ⟨rfl, by decide⟩

/-- C4 (amended): `ListItemElement.level` defaults to 1 when omitted, but
neither `TitleElement.level` nor `ListItemElement.level` is constrained to
be at least 1: both variants are constructible with `level < 1`. -/
theorem C4_level_unconstrained :
    (∀ c : List TextRun, ({ content := c } : ListItemElement).level = 1) ∧
    zeroLevelTitle.level < 1 ∧ zeroLevelItem.level < 1 :=
  ⟨fun _ => rfl, by decide, by decide⟩

/-- C5 counterexample: a `TextRun` with empty text inside an emitted
element is constructible — `text` is an unconstrained string, so the model
does not exclude it. -/
theorem C5_empty_run_counterexample :
    emptyRun ∈ emptyRunParagraph.content ∧ emptyRun.text = "" :=
  ⟨List.mem_singleton_self _, rfl⟩

/-- C5 (amended): `TextRun.text` is an unconstrained string: for every
style, an element whose rich text contains a run with empty text is
constructible; non-emptiness is a parser-side convention, not a property
of the model. -/
theorem C5_empty_text_constructible :
    ∀ s : TextStyle, ∃ e : ParagraphElement, ∃ r : TextRun,
      e.content = [r] ∧ r.text = "" ∧ r.style = s :=
  fun s => ⟨{ content := [{ text := "", style := s }] },
            { text := "", style := s }, rfl, rfl, rfl⟩

/-- C6 counterexample: a `TableElement` whose rows have different cell
counts (first row one cell, second row none) is constructible, so the
content grid of a constructible table is not always rectangular. -/
theorem C6_ragged_counterexample :
    rectangular raggedTable = false ∧
    raggedTable.content.map List.length = [1, 0] :=
  ⟨rfl, rfl⟩

/-- C6 (amended): `TableElement.content` is an arbitrary nested list:
rectangularity is not enforced at construction, and tables with ragged
rows are constructible. -/
theorem C6_rectangularity_not_enforced :
    ∃ t : TableElement, rectangular t = false :=
  ⟨raggedTable, rfl⟩

/-- C7 counterexample: the models are not frozen, so a field of a
constructed `ConversionConfig` can be reassigned, and the value observed
after the assignment differs from the value observed before. -/
theorem C7_mutation_counterexample :
    baseConfig.is_wiki = false ∧
    (assign_is_wiki baseConfig true).is_wiki = true ∧
    assign_is_wiki baseConfig true ≠ baseConfig :=
  ⟨rfl, rfl, by decide⟩

/-- C7 (amended): no class in types.py sets `frozen`, so field assignment
on a constructed `ConversionConfig` or `ParsedPresentation` succeeds, and
the value observed afterwards is the assigned one (immutability is a
usage convention, not enforced by the model). -/
theorem C7_models_not_frozen :
    (∀ (c : ConversionConfig) (b : Bool), (assign_is_wiki c b).is_wiki = b) ∧
    (∀ (p : ParsedPresentation) (s : List Slide), (assign_slides p s).slides = s) :=
  ⟨fun _ _ => rfl, fun _ _ => rfl⟩

/-- C8: every one of the eight element variants carries the optional
`position` and `style` fields: constructed with only required fields both
default to `none`, and for every variant and every pair of optional
values, an element of that variant carrying exactly those values is
constructible. -/
theorem C8_optional_position_style :
    (∀ k : ElementKind, (defaultElementOfKind k).position = none ∧
        (defaultElementOfKind k).style = none) ∧
    (∀ (k : ElementKind) (p : Option Position) (s : Option TextStyle),
        ∃ e : SlideElement, kindOf e = k ∧ e.position = p ∧ e.style = s) := by
  refine ⟨fun k => by cases k <;> exact ⟨rfl, rfl⟩, fun k p s => ?_⟩
  cases k
  · exact ⟨.title { content := "", level := 1, position := p, style := s }, rfl, rfl, rfl⟩
  · exact ⟨.list_item { content := [], position := p, style := s }, rfl, rfl, rfl⟩
  · exact ⟨.paragraph { content := [], position := p, style := s }, rfl, rfl, rfl⟩
  · exact ⟨.image { path := "", position := p, style := s }, rfl, rfl, rfl⟩
  · exact ⟨.table { content := [], position := p, style := s }, rfl, rfl, rfl⟩
  · exact ⟨.note { content := [], position := p, style := s }, rfl, rfl, rfl⟩
  · exact ⟨.column_start { width := "", position := p, style := s }, rfl, rfl, rfl⟩
  · exact ⟨.column_end { position := p, style := s }, rfl, rfl, rfl⟩

/-- C9: a `ConversionConfig` constructed from the required fields alone
has every boolean toggle false, `min_block_size = 15`, `image_width` and
`page` equal to `none`, and an empty `custom_titles` mapping. -/
theorem C9_default_field_values :
    ∀ (pp op : String) (idir tp : Option String),
      ({ pptx_path := pp, output_path := op, image_dir := idir,
         title_path := tp } : ConversionConfig).disable_image = false ∧
      ({ pptx_path := pp, output_path := op, image_dir := idir,
         title_path := tp } : ConversionConfig).disable_wmf = false ∧
      ({ pptx_path := pp, output_path := op, image_dir := idir,
         title_path := tp } : ConversionConfig).disable_color = false ∧
      ({ pptx_path := pp, output_path := op, image_dir := idir,
         title_path := tp } : ConversionConfig).disable_escaping = false ∧
      ({ pptx_path := pp, output_path := op, image_dir := idir,
         title_path := tp } : ConversionConfig).disable_notes = false ∧
      ({ pptx_path := pp, output_path := op, image_dir := idir,
         title_path := tp } : ConversionConfig).enable_slides = false ∧
      ({ pptx_path := pp, output_path := op, image_dir := idir,
         title_path := tp } : ConversionConfig).is_wiki = false ∧
      ({ pptx_path := pp, output_path := op, image_dir := idir,
         title_path := tp } : ConversionConfig).is_mdk = false ∧
      ({ pptx_path := pp, output_path := op, image_dir := idir,
         title_path := tp } : ConversionConfig).is_qmd = false ∧
      ({ pptx_path := pp, output_path := op, image_dir := idir,
         title_path := tp } : ConversionConfig).min_block_size = 15 ∧
      ({ pptx_path := pp, output_path := op, image_dir := idir,
         title_path := tp } : ConversionConfig).image_width = none ∧
      ({ pptx_path := pp, output_path := op, image_dir := idir,
         title_path := tp } : ConversionConfig).page = none ∧
      ({ pptx_path := pp, output_path := op, image_dir := idir,
         title_path := tp } : ConversionConfig).custom_titles = [] :=
  fun _ _ _ _ =>
    ⟨rfl, rfl, rfl, rfl, rfl, rfl, rfl, rfl, rfl, rfl, rfl, rfl, rfl⟩

/-- C10: construction of a `ConversionConfig` succeeds exactly when the
four fields without a default (`pptx_path`, `output_path`, `image_dir`,
`title_path`) are all supplied — every other field may be omitted — and
`image_dir` and `title_path` accept an explicit `None`. -/
theorem C10_required_fields :
    (∀ a : ConfigArgs,
        (validateConfig a).isSome =
          (a.pptx_path.isSome && a.output_path.isSome &&
            a.image_dir.isSome && a.title_path.isSome)) ∧
    (∀ pp op : String,
        validateConfig
            { pptx_path := some pp, output_path := some op,
              image_dir := some none, title_path := some none } =
          some { pptx_path := pp, output_path := op,
                 image_dir := none, title_path := none }) := by
  constructor
  · intro a
    cases hp : a.pptx_path <;> cases ho : a.output_path <;>
      cases hi : a.image_dir <;> cases ht : a.title_path <;>
        simp [validateConfig, hp, ho, hi, ht]
  · intro pp op
    rfl

end Pptx2md
